import Mathlib

/-!
Verification of the gifAPI request handlers (src/api/main.py) against their
specification. The FastAPI handlers are embedded as pure Lean functions over
an explicit database state. The `db` helper modules (db/db_helper.py,
db/pg_helper.py) are not part of the sources; their operations are modelled
from the spec where noted.
-/

/-- A gif record, mirroring the GifOut pydantic model / the stored row. -/
structure GifRecord where
  id : Nat
  title : String
  url : String
  nsfw : Bool
  anime : Option String
  created_at : String
  characters : List String
  tags : List String
deriving Repr, DecidableEq, Inhabited

/-- Body of POST /gifs, mirroring the GifIn pydantic model. -/
structure GifIn where
  title : String
  url : String
  nsfw : Bool
  anime : Option String
  characters : List String
  tags : List String
deriving Repr, DecidableEq, Inhabited

/-- Body of PATCH /gifs/{id}, mirroring the GifUpdate pydantic model:
`none` = field omitted (do not change), `some []` = clear the list. -/
structure GifUpdate where
  title : Option String
  url : Option String
  nsfw : Option Bool
  anime : Option String
  characters : Option (List String)
  tags : Option (List String)
deriving Repr, DecidableEq, Inhabited

/-- A Python exception escaping a db call: `KeyError` (missing row) or an
unclassified backing-store failure carrying its message. -/
inductive DbErr where
  | keyError
  | failure (msg : String)
deriving Repr, DecidableEq

/-- `str(e)` for a db exception, as used by `HTTPException(400, str(e))`. -/
def DbErr.msg : DbErr → String
  | .keyError => "KeyError"
  | .failure m => m

/-- The backing store held by the `db` object of main.py: gif records with
their tag/character associations, the session-token table, a clock, and an
injectable unclassified backing-store failure (`fail = some msg` makes the
next record-store statement raise an exception with that message, modelling
the spec's "unclassified backing-store failures"). -/
structure DB where
  records : List GifRecord
  nextId : Nat
  nowStamp : String
  tokens : List (String × Nat)
  now : Nat
  fail : Option String
deriving Repr, DecidableEq, Inhabited

/-- Python `str.lower()`, embedded character-wise (the handlers only
compare against ASCII literals). -/
def pyLower (s : String) : String := ⟨s.data.map Char.toLower⟩

/-- Python truthiness of an optional query/string parameter:
`None` and `""` are falsy. -/
def truthy : Option String → Bool
  | none => false
  | some s => !(s == "")

/-- Detail payload of an HTTPException: either a plain string or the
message-plus-suggestions dict built for anime/character misses. -/
inductive ErrorDetail where
  | text (msg : String)
  | withSuggestions (msg : String) (meintest_du : List String)
deriving Repr, DecidableEq

/-- Outcome of one request handler: a value (serialized with the route's
success status), an HTTPException (status, detail), or an exception that
escapes the handler unhandled (FastAPI turns it into a generic 500 server
failure). -/
inductive ApiResult (α : Type) where
  | ok (a : α)
  | httpError (status : Nat) (detail : ErrorDetail)
  | uncaught (msg : String)
deriving Repr, DecidableEq

/-- Modelled from the spec (db helpers are not under src/): the nsfw
visibility filter applied by every read query. `false` excludes flagged
records, `only` includes exclusively flagged records, anything else
(i.e. `true`) includes both. -/
def nsfwPred (mode : String) (r : GifRecord) : Bool :=
  if mode == "only" then r.nsfw
  else if mode == "false" then !r.nsfw
  else true

/-- Modelled from the spec (db helpers are not under src/): `get_all_tags`
returns the duplicate-free list of distinct tag names over the records
passing the nsfw mode. -/
def get_all_tags (records : List GifRecord) (mode : String) : List String :=
  ((records.filter (nsfwPred mode)).map (·.tags)).flatten.dedup

/-- Case-insensitive substring test, modelling SQL LIKE/ILIKE
`%needle%` on lowered strings. -/
def containsSub (hay needle : String) : Bool :=
  (List.range (hay.toList.length + 1)).any
    (fun i => needle.toList.isPrefixOf (hay.toList.drop i))

/-- Modelled from the spec (db helpers are not under src/):
`search_by_title` is the case-insensitive title-contains search, filtered
by the nsfw mode, paginated by offset/limit, returning an ordered list. -/
def search_by_title (records : List GifRecord) (q : String) (mode : String)
    (limit offset : Nat) : List GifRecord :=
  (((records.filter
      (fun r => nsfwPred mode r && containsSub (pyLower r.title) (pyLower q))).drop
    offset).take limit)

/-- Uniform random choice among a list of candidates, embedded as an
explicit pick index; `none` on an empty candidate set (the db helpers
raise KeyError there). -/
def pickRandom (l : List GifRecord) (pick : Nat) : Option GifRecord :=
  l.get? (pick % l.length)

/-- Modelled from the spec (db helpers are not under src/):
`get_random_by_tag` picks one record uniformly at random among the records
carrying the tag and passing the nsfw mode; KeyError (here `none`) when no
record matches. -/
def get_random_by_tag (records : List GifRecord) (t : String) (mode : String)
    (pick : Nat) : Option GifRecord :=
  pickRandom (records.filter (fun r => r.tags.contains t && nsfwPred mode r)) pick

/-- Modelled from the spec (db helpers are not under src/): as
`get_random_by_tag`, for the anime label. -/
def get_random_by_anime (records : List GifRecord) (a : String) (mode : String)
    (pick : Nat) : Option GifRecord :=
  pickRandom (records.filter (fun r => r.anime == some a && nsfwPred mode r)) pick

/-- Modelled from the spec (db helpers are not under src/): as
`get_random_by_tag`, for the character label. -/
def get_random_by_character (records : List GifRecord) (c : String) (mode : String)
    (pick : Nat) : Option GifRecord :=
  pickRandom (records.filter (fun r => r.characters.contains c && nsfwPred mode r)) pick

/-- Modelled from the spec (db helpers are not under src/): `get_random`
picks one record uniformly at random among all records passing the nsfw
mode; KeyError (`none`) on an empty candidate set. -/
def get_random (records : List GifRecord) (mode : String)
    (pick : Nat) : Option GifRecord :=
  pickRandom (records.filter (nsfwPred mode)) pick

/-- Length of the common prefix of two character lists, the similarity
score used by the modelled suggestion ranking. -/
def commonPrefixLen : List Char → List Char → Nat
  | a :: as, b :: bs => if a = b then commonPrefixLen as bs + 1 else 0
  | _, _ => 0

/-- Similarity of a candidate label to the query (case-insensitive). -/
def simScore (q s : String) : Nat :=
  commonPrefixLen (pyLower q).toList (pyLower s).toList

/-- Insert a scored label into a list kept in descending score order. -/
def insertRanked (x : Nat × String) : List (Nat × String) → List (Nat × String)
  | [] => [x]
  | y :: ys => if y.1 < x.1 then x :: y :: ys else y :: insertRanked x ys

/-- Modelled from the spec (db helpers are not under src/): suggestion
matching ranks a fixed label universe by textual similarity to the query
(the exact metric is an implementation choice; this one is deterministic)
and returns up to `limit` labels; an empty universe yields `[]`. -/
def suggestLabels (labels : List String) (q : String) (limit : Nat) : List String :=
  (((labels.map (fun s => (simScore q s, s))).foldr insertRanked []).map (·.2)).take limit

/-- Modelled from the spec (db helpers are not under src/): `suggest_anime`
runs suggestion matching over the distinct anime labels, ignoring the nsfw
mode for the suggestion universe. -/
def suggest_anime (records : List GifRecord) (q : String) (limit : Nat) : List String :=
  suggestLabels (records.filterMap (·.anime)).dedup q limit

/-- Modelled from the spec (db helpers are not under src/):
`suggest_character` runs suggestion matching over the distinct character
labels, ignoring the nsfw mode for the suggestion universe. -/
def suggest_character (records : List GifRecord) (q : String) (limit : Nat) : List String :=
  suggestLabels ((records.map (·.characters)).flatten).dedup q limit

/-- Value returned by a successful GET /gifs: a single record
(random modes), a record list (title search), or a tag list. -/
inductive GifsResponse where
  | record (r : GifRecord)
  | recordList (rs : List GifRecord)
  | tagList (ts : List String)
deriving Repr, DecidableEq

/-- The `except KeyError` block of unified_get_gifs: anime/character misses
build a 404 with up to 5 suggestions; otherwise the KeyError is re-raised
and escapes the handler. -/
def randomMissHandler (records : List GifRecord) (anime character : Option String) :
    ApiResult GifsResponse :=
  if truthy anime then
    .httpError 404 (.withSuggestions
      ("no gifs found for anime " ++ anime.getD "")
      (suggest_anime records (anime.getD "") 5))
  else if truthy character then
    .httpError 404 (.withSuggestions
      ("no gifs found for character " ++ character.getD "")
      (suggest_character records (character.getD "") 5))
  else .uncaught "KeyError"

/-- Query parameters of GET /gifs (FastAPI defaults: nsfw="false",
limit=50, offset=0; limit/offset bounds are enforced by the framework). -/
structure QueryParams where
  q : Option String
  tag : Option String
  anime : Option String
  character : Option String
  list : Option String
  nsfw : String
  limit : Nat
  offset : Nat
deriving Repr, DecidableEq, Inhabited

/-- Stage 4/5 of unified_get_gifs: the mutual-exclusivity check over the
truthy members of [tag, anime, character], the three random-by-filter
branches with their KeyError handler, and the default fully-random branch. -/
def filterStage (records : List GifRecord) (p : QueryParams) (mode : String)
    (pick : Nat) : ApiResult GifsResponse :=
  if ([p.tag, p.anime, p.character].filter truthy).length > 1 then
    .httpError 400 (.text "Use only one of tag, anime, or character.")
  else if truthy p.tag then
    match get_random_by_tag records (p.tag.getD "") mode pick with
    | some r => .ok (.record r)
    | none => randomMissHandler records p.anime p.character
  else if truthy p.anime then
    match get_random_by_anime records (p.anime.getD "") mode pick with
    | some r => .ok (.record r)
    | none => randomMissHandler records p.anime p.character
  else if truthy p.character then
    match get_random_by_character records (p.character.getD "") mode pick with
    | some r => .ok (.record r)
    | none => randomMissHandler records p.anime p.character
  else
    match get_random records mode pick with
    | some r => .ok (.record r)
    | none => .httpError 404 (.text "no gifs in database")

/-- Stage 3 of unified_get_gifs: the q-branch (title search, rejecting a
simultaneous truthy tag/anime/character) or fall through to filterStage. -/
def qStage (records : List GifRecord) (p : QueryParams) (mode : String)
    (pick : Nat) : ApiResult GifsResponse :=
  match p.q with
  | some qv =>
    if truthy p.tag || truthy p.anime || truthy p.character then
      .httpError 400 (.text "Use either q OR one of tag/anime/character.")
    else .ok (.recordList (search_by_title records qv mode p.limit p.offset))
  | none => filterStage records p mode pick

/-- Stage 2 of unified_get_gifs: the list directive (only `tags`,
case-insensitive) or fall through to the q stage. -/
def listStage (records : List GifRecord) (p : QueryParams) (mode : String)
    (pick : Nat) : ApiResult GifsResponse :=
  match p.list with
  | some l =>
    if pyLower l == "tags" then .ok (.tagList (get_all_tags records mode))
    else .httpError 400 (.text "Unsupported list value. Use list=tags")
  | none => qStage records p mode pick

/-- The nsfw mode actually used: `(nsfw or "false").lower()`. -/
def nsfwModeOf (nsfw : String) : String :=
  pyLower (if nsfw == "" then "false" else nsfw)

/-- The membership test `nsfw_mode in {"false", "true", "only"}`. -/
def nsfwValid (mode : String) : Bool :=
  mode == "false" || mode == "true" || mode == "only"

/-- GET /gifs (unified_get_gifs of main.py): validate the nsfw literal,
then resolve list / q / random-by-filter / fully-random in that order.
The random choice of the db helpers is embedded as the pick index. -/
def unified_get_gifs (records : List GifRecord) (p : QueryParams)
    (pick : Nat) : ApiResult GifsResponse :=
  if !(nsfwValid (nsfwModeOf p.nsfw)) then
    .httpError 400 (.text "nsfw must be one of: false, true, only")
  else listStage records p (nsfwModeOf p.nsfw) pick

/-- The FastAPI defaults of the GET /gifs query parameters: everything
absent, nsfw="false", limit=50, offset=0. -/
def defaultParams : QueryParams :=
  ⟨none, none, none, none, none, "false", 50, 0⟩

/-- Modelled from the spec (db helpers are not under src/): `get_gif` looks
a record up by id, raising KeyError when absent; an injected backing-store
failure raises its exception instead. -/
def DB.get_gif (d : DB) (gid : Nat) : Except DbErr GifRecord :=
  match d.fail with
  | some m => .error (.failure m)
  | none =>
    match d.records.find? (fun r => r.id == gid) with
    | some r => .ok r
    | none => .error .keyError

/-- Modelled from the spec (db helpers are not under src/): `get_gif_by_url`
looks a record up by exact url match, raising KeyError when absent. -/
def DB.get_gif_by_url (d : DB) (url : String) : Except DbErr GifRecord :=
  match d.fail with
  | some m => .error (.failure m)
  | none =>
    match d.records.find? (fun r => r.url == url) with
    | some r => .ok r
    | none => .error .keyError

/-- Modelled from the spec (db helpers are not under src/): `insert_gif`
appends a fresh record (id assigned on insert, created_at set once) and
returns the new id. -/
def DB.insert_gif (d : DB) (p : GifIn) : Except DbErr (DB × Nat) :=
  match d.fail with
  | some m => .error (.failure m)
  | none =>
    let r : GifRecord :=
      ⟨d.nextId, p.title, p.url, p.nsfw, p.anime, d.nowStamp, p.characters, p.tags⟩
    .ok ({ d with records := d.records ++ [r], nextId := d.nextId + 1 }, d.nextId)

/-- Partial-update of one stored record: a field supplied as `some v`
(including `some []`) overwrites the stored value, a field supplied as
`none` leaves it unchanged; id and created_at are immutable. -/
def applyGifUpdate (r : GifRecord) (u : GifUpdate) : GifRecord :=
  ⟨r.id, u.title.getD r.title, u.url.getD r.url, u.nsfw.getD r.nsfw,
    (match u.anime with | some a => some a | none => r.anime),
    r.created_at, u.characters.getD r.characters, u.tags.getD r.tags⟩

/-- Modelled from the spec (db helpers are not under src/): `update_gif`
applies the partial update to every record carrying the id (a no-op when
the id is absent, like an UPDATE matching no row). -/
def DB.update_gif (d : DB) (gid : Nat) (u : GifUpdate) : Except DbErr DB :=
  match d.fail with
  | some m => .error (.failure m)
  | none =>
    .ok { d with records :=
      d.records.map (fun r => if r.id == gid then applyGifUpdate r u else r) }

/-- Modelled from the spec (db helpers are not under src/): `delete_gif`
removes the record(s) carrying the id. -/
def DB.delete_gif (d : DB) (gid : Nat) : Except DbErr DB :=
  match d.fail with
  | some m => .error (.failure m)
  | none => .ok { d with records := d.records.filter (fun r => !(r.id == gid)) }

/-- Modelled from the spec (db helpers are not under src/): `validate_token`
is true iff a session row exists for the token and its expiry is in the
future. -/
def DB.validate_token (d : DB) (t : String) : Bool :=
  match d.tokens.find? (fun e => e.1 == t) with
  | some e => d.now < e.2
  | none => false

/-- Modelled from the spec (db helpers are not under src/): `create_token`
persists a freshly generated opaque token (passed in as `fresh`, standing
for the cryptographically random string) with expiry now + hours_valid
hours, and returns it. -/
def DB.create_token (d : DB) (fresh : String) (hours_valid : Nat) : DB × String :=
  ({ d with tokens := (fresh, d.now + hours_valid * 3600) :: d.tokens }, fresh)

/-- Modelled from the spec (db helpers are not under src/):
`get_token_expiry` returns the stored expiry if the token exists
(regardless of expiry), else absent. -/
def DB.get_token_expiry (d : DB) (t : String) : Option Nat :=
  (d.tokens.find? (fun e => e.1 == t)).map (·.2)

/-- Modelled from the spec (db helpers are not under src/): `revoke_token`
deletes the session row if present; idempotent. -/
def DB.revoke_token (d : DB) (t : String) : DB :=
  { d with tokens := d.tokens.filter (fun e => !(e.1 == t)) }

/-- require_auth of main.py: the request passes iff the X-Auth-Token header
is present, truthy, and validate_token accepts it. -/
def require_auth (d : DB) (x_auth_token : Option String) : Bool :=
  truthy x_auth_token && d.validate_token (x_auth_token.getD "")

/-- POST /gifs (create_or_update_gif of main.py): upsert-by-URL inside a
catch-all `except Exception` that converts any exception into a 400 whose
detail is `str(e)`. The route decorator fixes the success status at 201 and
the handler never overrides it, for the update path included. -/
def create_or_update_gif (d : DB) (p : GifIn) : DB × ApiResult (Nat × GifRecord) :=
  match d.get_gif_by_url p.url with
  | .error (.failure m) => (d, .httpError 400 (.text m))
  | .ok existing =>
    match d.update_gif existing.id
        ⟨some p.title, none, some p.nsfw, p.anime, some p.characters, some p.tags⟩ with
    | .error e => (d, .httpError 400 (.text e.msg))
    | .ok d2 =>
      match d2.get_gif existing.id with
      | .ok r => (d2, .ok (201, r))
      | .error e => (d2, .httpError 400 (.text e.msg))
  | .error .keyError =>
    match d.insert_gif p with
    | .error e => (d, .httpError 400 (.text e.msg))
    | .ok (d2, gid) =>
      match d2.get_gif gid with
      | .ok r => (d2, .ok (201, r))
      | .error e => (d2, .httpError 400 (.text e.msg))

/-- PATCH /gifs/{id} (update_gif of main.py): 404 when the id is absent
(only KeyError from the existence check is handled), else apply the partial
update and return the stored record. -/
def update_gif (d : DB) (gid : Nat) (payload : GifUpdate) : DB × ApiResult GifRecord :=
  match d.get_gif gid with
  | .error .keyError => (d, .httpError 404 (.text "GIF not found"))
  | .error (.failure m) => (d, .uncaught m)
  | .ok _ =>
    match d.update_gif gid payload with
    | .error e => (d, .uncaught e.msg)
    | .ok d2 =>
      match d2.get_gif gid with
      | .ok r => (d2, .ok r)
      | .error e => (d2, .uncaught e.msg)

/-- DELETE /gifs/{id} (delete_gif of main.py): 404 when the id is absent,
else delete and answer 204. -/
def delete_gif (d : DB) (gid : Nat) : DB × ApiResult Nat :=
  match d.get_gif gid with
  | .error .keyError => (d, .httpError 404 (.text "GIF not found"))
  | .error (.failure m) => (d, .uncaught m)
  | .ok _ =>
    match d.delete_gif gid with
    | .error e => (d, .uncaught e.msg)
    | .ok d2 => (d2, .ok 204)

/-- GET /admin/gifs (admin_list_gifs of main.py): title-contains search;
`q or ""` is passed through, the nsfw literal is forwarded unvalidated. -/
def admin_list_gifs (d : DB) (q : Option String) (nsfw : String)
    (limit offset : Nat) : DB × ApiResult (List GifRecord) :=
  (d, .ok (search_by_title d.records (if truthy q then q.getD "" else "") nsfw limit offset))

/-- The Unauthorized rejection raised by require_auth. -/
def unauthorized (α : Type) : ApiResult α := .httpError 401 (.text "Unauthorized")

/-- POST /gifs behind its require_auth dependency: the guard runs before
the handler, so a failed guard leaves the store untouched. -/
def guarded_create_or_update_gif (d : DB) (tok : Option String) (p : GifIn) :
    DB × ApiResult (Nat × GifRecord) :=
  if require_auth d tok then create_or_update_gif d p
  else (d, unauthorized _)

/-- PATCH /gifs/{id} behind its require_auth dependency. -/
def guarded_update_gif (d : DB) (tok : Option String) (gid : Nat)
    (payload : GifUpdate) : DB × ApiResult GifRecord :=
  if require_auth d tok then update_gif d gid payload
  else (d, unauthorized _)

/-- DELETE /gifs/{id} behind its require_auth dependency. -/
def guarded_delete_gif (d : DB) (tok : Option String) (gid : Nat) :
    DB × ApiResult Nat :=
  if require_auth d tok then delete_gif d gid
  else (d, unauthorized _)

/-- GET /admin/gifs behind its require_auth dependency. -/
def guarded_admin_list_gifs (d : DB) (tok : Option String) (q : Option String)
    (nsfw : String) (limit offset : Nat) : DB × ApiResult (List GifRecord) :=
  if require_auth d tok then admin_list_gifs d q nsfw limit offset
  else (d, unauthorized _)

/-- POST /auth/login (login of main.py): 500 when no admin password is
configured, 401 on a wrong password, else create a 24-hour token and return
it with its stored expiry. `fresh` stands for the random token string
generated inside create_token. -/
def login (admin_password : String) (d : DB) (fresh : String) (password : String) :
    DB × ApiResult (String × Option Nat) :=
  if admin_password == "" then
    (d, .httpError 500 (.text "Server not configured: GIFAPI_ADMIN_PASSWORD missing"))
  else if !(password == admin_password) then
    (d, .httpError 401 (.text "Invalid password"))
  else
    let (d2, token) := d.create_token fresh 24
    (d2, .ok (token, d2.get_token_expiry token))


/-! ### Helper lemmas about the query path -/

lemma mem_of_pickRandom {l : List GifRecord} {pick : Nat} {r : GifRecord}
    (h : pickRandom l pick = some r) : r ∈ l :=
  List.get?_mem h

lemma nsfw_of_get_random_by_tag {records : List GifRecord} {t mode : String}
    {pick : Nat} {r : GifRecord}
    (h : get_random_by_tag records t mode pick = some r) : nsfwPred mode r = true := by
  have hm := mem_of_pickRandom h
  rw [List.mem_filter] at hm
  exact (Bool.and_eq_true_iff.mp hm.2).2

lemma nsfw_of_get_random_by_anime {records : List GifRecord} {a mode : String}
    {pick : Nat} {r : GifRecord}
    (h : get_random_by_anime records a mode pick = some r) : nsfwPred mode r = true := by
  have hm := mem_of_pickRandom h
  rw [List.mem_filter] at hm
  exact (Bool.and_eq_true_iff.mp hm.2).2

lemma nsfw_of_get_random_by_character {records : List GifRecord} {c mode : String}
    {pick : Nat} {r : GifRecord}
    (h : get_random_by_character records c mode pick = some r) : nsfwPred mode r = true := by
  have hm := mem_of_pickRandom h
  rw [List.mem_filter] at hm
  exact (Bool.and_eq_true_iff.mp hm.2).2

lemma nsfw_of_get_random {records : List GifRecord} {mode : String}
    {pick : Nat} {r : GifRecord}
    (h : get_random records mode pick = some r) : nsfwPred mode r = true := by
  have hm := mem_of_pickRandom h
  rw [List.mem_filter] at hm
  exact hm.2

lemma nsfw_of_search_by_title {records : List GifRecord} {q mode : String}
    {limit offset : Nat} {r : GifRecord}
    (h : r ∈ search_by_title records q mode limit offset) : nsfwPred mode r = true := by
  unfold search_by_title at h
  have h1 := List.mem_of_mem_drop (List.mem_of_mem_take h)
  rw [List.mem_filter] at h1
  exact (Bool.and_eq_true_iff.mp h1.2).1

lemma randomMissHandler_ne_ok (records : List GifRecord)
    (anime character : Option String) (x : GifsResponse) :
    randomMissHandler records anime character ≠ .ok x := by
  unfold randomMissHandler
  split
  · simp
  · split <;> simp

lemma filterStage_record_nsfw {records : List GifRecord} {p : QueryParams}
    {mode : String} {pick : Nat} {r : GifRecord}
    (h : filterStage records p mode pick = .ok (.record r)) : nsfwPred mode r = true := by
  unfold filterStage at h
  by_cases h1 : ([p.tag, p.anime, p.character].filter truthy).length > 1
  · rw [if_pos h1] at h; exact absurd h (by simp)
  rw [if_neg h1] at h
  by_cases h2 : truthy p.tag = true
  · rw [if_pos h2] at h
    rcases hg : get_random_by_tag records (p.tag.getD "") mode pick with _ | r'
    · rw [hg] at h; exact absurd h (randomMissHandler_ne_ok _ _ _ _)
    · rw [hg] at h
      simp only [ApiResult.ok.injEq, GifsResponse.record.injEq] at h
      exact h ▸ nsfw_of_get_random_by_tag hg
  rw [if_neg h2] at h
  by_cases h3 : truthy p.anime = true
  · rw [if_pos h3] at h
    rcases hg : get_random_by_anime records (p.anime.getD "") mode pick with _ | r'
    · rw [hg] at h; exact absurd h (randomMissHandler_ne_ok _ _ _ _)
    · rw [hg] at h
      simp only [ApiResult.ok.injEq, GifsResponse.record.injEq] at h
      exact h ▸ nsfw_of_get_random_by_anime hg
  rw [if_neg h3] at h
  by_cases h4 : truthy p.character = true
  · rw [if_pos h4] at h
    rcases hg : get_random_by_character records (p.character.getD "") mode pick with _ | r'
    · rw [hg] at h; exact absurd h (randomMissHandler_ne_ok _ _ _ _)
    · rw [hg] at h
      simp only [ApiResult.ok.injEq, GifsResponse.record.injEq] at h
      exact h ▸ nsfw_of_get_random_by_character hg
  rw [if_neg h4] at h
  rcases hg : get_random records mode pick with _ | r'
  · rw [hg] at h; exact absurd h (by simp)
  · rw [hg] at h
    simp only [ApiResult.ok.injEq, GifsResponse.record.injEq] at h
    exact h ▸ nsfw_of_get_random hg

lemma filterStage_ne_recordList (records : List GifRecord) (p : QueryParams)
    (mode : String) (pick : Nat) (rs : List GifRecord) :
    filterStage records p mode pick ≠ .ok (.recordList rs) := by
  unfold filterStage
  split
  · simp
  split
  · rcases hg : get_random_by_tag records (p.tag.getD "") mode pick with _ | r'
    · exact randomMissHandler_ne_ok _ _ _ _
    · simp
  split
  · rcases hg : get_random_by_anime records (p.anime.getD "") mode pick with _ | r'
    · exact randomMissHandler_ne_ok _ _ _ _
    · simp
  split
  · rcases hg : get_random_by_character records (p.character.getD "") mode pick with _ | r'
    · exact randomMissHandler_ne_ok _ _ _ _
    · simp
  rcases hg : get_random records mode pick with _ | r' <;> simp

lemma qStage_record_nsfw {records : List GifRecord} {p : QueryParams}
    {mode : String} {pick : Nat} {r : GifRecord}
    (h : qStage records p mode pick = .ok (.record r)) : nsfwPred mode r = true := by
  unfold qStage at h
  split at h
  · split at h
    · exact absurd h (by simp)
    · exact absurd h (by simp)
  · exact filterStage_record_nsfw h

lemma qStage_recordList_nsfw {records : List GifRecord} {p : QueryParams}
    {mode : String} {pick : Nat} {rs : List GifRecord}
    (h : qStage records p mode pick = .ok (.recordList rs)) :
    ∀ r ∈ rs, nsfwPred mode r = true := by
  unfold qStage at h
  split at h
  · split at h
    · exact absurd h (by simp)
    · simp only [ApiResult.ok.injEq, GifsResponse.recordList.injEq] at h
      intro r hr
      exact nsfw_of_search_by_title (h ▸ hr)
  · exact absurd h (filterStage_ne_recordList _ _ _ _ _)

lemma listStage_record_nsfw {records : List GifRecord} {p : QueryParams}
    {mode : String} {pick : Nat} {r : GifRecord}
    (h : listStage records p mode pick = .ok (.record r)) : nsfwPred mode r = true := by
  unfold listStage at h
  split at h
  · split at h
    · exact absurd h (by simp)
    · exact absurd h (by simp)
  · exact qStage_record_nsfw h

lemma listStage_recordList_nsfw {records : List GifRecord} {p : QueryParams}
    {mode : String} {pick : Nat} {rs : List GifRecord}
    (h : listStage records p mode pick = .ok (.recordList rs)) :
    ∀ r ∈ rs, nsfwPred mode r = true := by
  unfold listStage at h
  split at h
  · split at h
    · exact absurd h (by simp)
    · exact absurd h (by simp)
  · exact qStage_recordList_nsfw h

lemma unified_record_nsfw {records : List GifRecord} {p : QueryParams}
    {pick : Nat} {r : GifRecord}
    (h : unified_get_gifs records p pick = .ok (.record r)) :
    nsfwPred (nsfwModeOf p.nsfw) r = true := by
  unfold unified_get_gifs at h
  by_cases hv : (!(nsfwValid (nsfwModeOf p.nsfw))) = true
  · rw [if_pos hv] at h; exact absurd h (by simp)
  · rw [if_neg hv] at h; exact listStage_record_nsfw h

lemma unified_recordList_nsfw {records : List GifRecord} {p : QueryParams}
    {pick : Nat} {rs : List GifRecord}
    (h : unified_get_gifs records p pick = .ok (.recordList rs)) :
    ∀ r ∈ rs, nsfwPred (nsfwModeOf p.nsfw) r = true := by
  unfold unified_get_gifs at h
  by_cases hv : (!(nsfwValid (nsfwModeOf p.nsfw))) = true
  · rw [if_pos hv] at h; exact absurd h (by simp)
  · rw [if_neg hv] at h; exact listStage_recordList_nsfw h

lemma nsfwPred_only (r : GifRecord) : nsfwPred "only" r = r.nsfw := rfl

lemma nsfwPred_false (r : GifRecord) : nsfwPred "false" r = !r.nsfw := rfl

lemma unified_valid {records : List GifRecord} {p : QueryParams} {pick : Nat}
    (hv : nsfwValid (nsfwModeOf p.nsfw) = true) :
    unified_get_gifs records p pick =
      listStage records p (nsfwModeOf p.nsfw) pick := by
  unfold unified_get_gifs
  rw [hv]
  rfl

lemma unified_invalid {records : List GifRecord} {p : QueryParams} {pick : Nat}
    (hv : nsfwValid (nsfwModeOf p.nsfw) = false) :
    unified_get_gifs records p pick =
      .httpError 400 (.text "nsfw must be one of: false, true, only") := by
  unfold unified_get_gifs
  rw [hv]
  rfl

lemma listStage_none {records : List GifRecord} {p : QueryParams} {mode : String}
    {pick : Nat} (hl : p.list = none) :
    listStage records p mode pick = qStage records p mode pick := by
  unfold listStage
  rw [hl]

lemma qStage_none {records : List GifRecord} {p : QueryParams} {mode : String}
    {pick : Nat} (hq : p.q = none) :
    qStage records p mode pick = filterStage records p mode pick := by
  unfold qStage
  rw [hq]

lemma suggestLabels_length_le (labels : List String) (q : String) (n : Nat) :
    (suggestLabels labels q n).length ≤ n := by
  unfold suggestLabels
  rw [List.length_take]
  exact min_le_left _ _

/-- C7: under nsfw mode `only` every record returned by GET /gifs is
flagged, and under nsfw mode `false` no returned record is flagged. -/
theorem c7_nsfw_mode_respected (records : List GifRecord) (p : QueryParams)
    (pick : Nat) :
    (p.nsfw = "only" →
      (∀ r, unified_get_gifs records p pick = .ok (.record r) → r.nsfw = true) ∧
      (∀ rs r, unified_get_gifs records p pick = .ok (.recordList rs) → r ∈ rs →
        r.nsfw = true)) ∧
    (p.nsfw = "false" →
      (∀ r, unified_get_gifs records p pick = .ok (.record r) → r.nsfw = false) ∧
      (∀ rs r, unified_get_gifs records p pick = .ok (.recordList rs) → r ∈ rs →
        r.nsfw = false)) := by
  constructor
  · intro hp
    constructor
    · intro r h
      have hh := unified_record_nsfw h
      rw [hp] at hh
      exact hh
    · intro rs r h hr
      have hh := unified_recordList_nsfw h r hr
      rw [hp] at hh
      exact hh
  · intro hp
    constructor
    · intro r h
      have hh := unified_record_nsfw h
      rw [hp] at hh
      have hh2 : (!r.nsfw) = true := hh
      simpa using hh2
    · intro rs r h hr
      have hh := unified_recordList_nsfw h r hr
      rw [hp] at hh
      have hh2 : (!r.nsfw) = true := hh
      simpa using hh2

/-- A concrete flagged record used by witnesses. -/
def gW : GifRecord :=
  ⟨1, "A", "http://a/1.gif", true, some "X", "t0", ["c"], ["t"]⟩

/-- Witness for C7: a store holding one flagged record; nsfw=only returns
it and it is flagged. -/
theorem c7_nsfw_mode_respected_witness :
    unified_get_gifs [gW] { defaultParams with nsfw := "only" } 0 =
      .ok (.record gW) ∧ gW.nsfw = true := by
  constructor
  · rfl
  · exact ((c7_nsfw_mode_respected [gW]
      { defaultParams with nsfw := "only" } 0).1 rfl).1 gW (by rfl)

/-- Counterexample for C5: the literal "FALSE" is none of false/true/only,
yet the request succeeds (the handler lowercases first). -/
theorem c5_nsfw_literal_cex :
    nsfwValid "FALSE" = false ∧
    unified_get_gifs [] { defaultParams with nsfw := "FALSE", list := some "tags" } 0 =
      .ok (.tagList []) := ⟨rfl, rfl⟩

/-- C5 (amended): whenever the nsfw parameter after lowercasing (an
absent/empty value defaulting to false) is none of false/true/only, the
request fails with 400 — with a result independent of the record store and
of every other parameter, hence before any store access or other
resolution step. -/
theorem c5_nsfw_literal_amended (records : List GifRecord) (p : QueryParams)
    (pick : Nat) (hv : nsfwValid (nsfwModeOf p.nsfw) = false) :
    unified_get_gifs records p pick =
      .httpError 400 (.text "nsfw must be one of: false, true, only") :=
  unified_invalid hv

/-- Witness for the amended C5 at a concrete invalid literal. -/
theorem c5_nsfw_literal_amended_witness :
    nsfwValid (nsfwModeOf "bogus") = false ∧
    unified_get_gifs [gW] { defaultParams with nsfw := "bogus" } 0 =
      .httpError 400 (.text "nsfw must be one of: false, true, only") :=
  ⟨rfl, c5_nsfw_literal_amended [gW] { defaultParams with nsfw := "bogus" } 0 rfl⟩

/-- Counterexample for C4: q supplied together with a supplied (but empty)
tag is not rejected — Python truthiness lets `tag=""` through and the title
search runs. -/
theorem c4_conflict_cex :
    ({ defaultParams with q := some "X", tag := some "" } : QueryParams).q = some "X" ∧
    ({ defaultParams with q := some "X", tag := some "" } : QueryParams).tag = some "" ∧
    unified_get_gifs [] { defaultParams with q := some "X", tag := some "" } 0 =
      .ok (.recordList []) := ⟨rfl, rfl, rfl⟩

/-- C4 (amended): with no list directive, a request that supplies q
together with a non-empty (truthy) tag/anime/character, or more than one
truthy member of {tag, anime, character} without q, fails with some 400
error, and the outcome is independent of the record store and the pick. -/
theorem c4_conflict_amended (records : List GifRecord) (p : QueryParams)
    (pick : Nat) (hl : p.list = none)
    (hc : (p.q.isSome = true ∧
            (truthy p.tag || truthy p.anime || truthy p.character) = true) ∨
          (p.q = none ∧ ([p.tag, p.anime, p.character].filter truthy).length > 1)) :
    unified_get_gifs records p pick = unified_get_gifs [] p 0 ∧
    ∃ dt, unified_get_gifs records p pick = .httpError 400 dt := by
  rcases hc with ⟨hqs, hor⟩ | ⟨hqn, hlen⟩
  · rcases Option.isSome_iff_exists.mp hqs with ⟨qv, hq⟩
    by_cases hv : nsfwValid (nsfwModeOf p.nsfw) = true
    · have key : ∀ rs : List GifRecord, ∀ pk : Nat, unified_get_gifs rs p pk =
          .httpError 400 (.text "Use either q OR one of tag/anime/character.") := by
        intro rs pk
        rw [unified_valid hv, listStage_none hl]
        unfold qStage
        rw [hq]
        exact if_pos hor
      exact ⟨(key records pick).trans (key [] 0).symm, _, key records pick⟩
    · have hv' : nsfwValid (nsfwModeOf p.nsfw) = false := by
        cases hb : nsfwValid (nsfwModeOf p.nsfw)
        · rfl
        · exact absurd hb hv
      exact ⟨(unified_invalid hv').trans (unified_invalid hv').symm, _,
        unified_invalid hv'⟩
  · by_cases hv : nsfwValid (nsfwModeOf p.nsfw) = true
    · have key : ∀ rs : List GifRecord, ∀ pk : Nat, unified_get_gifs rs p pk =
          .httpError 400 (.text "Use only one of tag, anime, or character.") := by
        intro rs pk
        rw [unified_valid hv, listStage_none hl, qStage_none hqn]
        unfold filterStage
        exact if_pos hlen
      exact ⟨(key records pick).trans (key [] 0).symm, _, key records pick⟩
    · have hv' : nsfwValid (nsfwModeOf p.nsfw) = false := by
        cases hb : nsfwValid (nsfwModeOf p.nsfw)
        · rfl
        · exact absurd hb hv
      exact ⟨(unified_invalid hv').trans (unified_invalid hv').symm, _,
        unified_invalid hv'⟩

/-- Witness for the amended C4: q together with a non-empty tag is
rejected with 400. -/
theorem c4_conflict_amended_witness :
    unified_get_gifs [gW] { defaultParams with q := some "X", tag := some "t" } 3 =
      unified_get_gifs [] { defaultParams with q := some "X", tag := some "t" } 0 ∧
    ∃ dt, unified_get_gifs [gW] { defaultParams with q := some "X", tag := some "t" } 3 =
      .httpError 400 dt :=
  c4_conflict_amended [gW] { defaultParams with q := some "X", tag := some "t" } 3
    rfl (Or.inl ⟨rfl, rfl⟩)

/-- C6: with a list directive present, the value `tags` (case-insensitive,
under a valid nsfw literal) answers with the duplicate-free list of
distinct tag names filtered by the nsfw mode, and any other list value
fails with a 400. -/
theorem c6_list_directive (records : List GifRecord) (p : QueryParams)
    (pick : Nat) (l : String) (hl : p.list = some l) :
    (nsfwValid (nsfwModeOf p.nsfw) = true → pyLower l = "tags" →
      unified_get_gifs records p pick =
        .ok (.tagList (get_all_tags records (nsfwModeOf p.nsfw))) ∧
      (get_all_tags records (nsfwModeOf p.nsfw)).Nodup) ∧
    (¬(pyLower l = "tags") →
      ∃ dt, unified_get_gifs records p pick = .httpError 400 dt) := by
  constructor
  · intro hv ht
    constructor
    · rw [unified_valid hv]
      unfold listStage
      rw [hl]
      exact if_pos (by rw [ht]; rfl)
    · unfold get_all_tags
      exact List.nodup_dedup _
  · intro ht
    by_cases hv : nsfwValid (nsfwModeOf p.nsfw) = true
    · have key : unified_get_gifs records p pick =
          .httpError 400 (.text "Unsupported list value. Use list=tags") := by
        rw [unified_valid hv]
        unfold listStage
        rw [hl]
        exact if_neg (by simpa using ht)
      exact ⟨_, key⟩
    · have hv' : nsfwValid (nsfwModeOf p.nsfw) = false := by
        cases hb : nsfwValid (nsfwModeOf p.nsfw)
        · rfl
        · exact absurd hb hv
      exact ⟨_, unified_invalid hv'⟩

/-- Witness for C6: `list=TAGS` over a one-record store returns its
deduplicated tag names. -/
theorem c6_list_directive_witness :
    unified_get_gifs [gW] { defaultParams with list := some "TAGS" } 0 =
      .ok (.tagList (get_all_tags [gW] "false")) ∧
    (get_all_tags [gW] "false").Nodup :=
  (c6_list_directive [gW] { defaultParams with list := some "TAGS" } 0 "TAGS" rfl).1
    rfl rfl

/-- Counterexample for C1: a tag filter matching zero records does not
produce a 404 — the handler's `except KeyError` block re-raises for the
tag case, so the KeyError escapes unhandled. -/
theorem c1_tag_miss_cex :
    unified_get_gifs [] { defaultParams with tag := some "zzz" } 0 =
      .uncaught "KeyError" := rfl

/-- C1 (amended): for a request reaching the random-by-filter stage
(valid nsfw literal, no list, no q) with exactly one truthy filter and
zero matching records under the nsfw mode: an anime or character filter
fails with 404 carrying at most 5 fuzzy suggestions, while a tag filter
re-raises the KeyError, which escapes the handler unhandled. -/
theorem c1_random_miss_amended (records : List GifRecord) (p : QueryParams)
    (pick : Nat) (hl : p.list = none) (hq : p.q = none)
    (hv : nsfwValid (nsfwModeOf p.nsfw) = true) :
    (truthy p.tag = true → truthy p.anime = false → truthy p.character = false →
      records.filter (fun r => r.tags.contains (p.tag.getD "") &&
        nsfwPred (nsfwModeOf p.nsfw) r) = [] →
      unified_get_gifs records p pick = .uncaught "KeyError") ∧
    (truthy p.anime = true → truthy p.tag = false → truthy p.character = false →
      records.filter (fun r => r.anime == some (p.anime.getD "") &&
        nsfwPred (nsfwModeOf p.nsfw) r) = [] →
      unified_get_gifs records p pick =
        .httpError 404 (.withSuggestions
          ("no gifs found for anime " ++ p.anime.getD "")
          (suggest_anime records (p.anime.getD "") 5)) ∧
      (suggest_anime records (p.anime.getD "") 5).length ≤ 5) ∧
    (truthy p.character = true → truthy p.tag = false → truthy p.anime = false →
      records.filter (fun r => r.characters.contains (p.character.getD "") &&
        nsfwPred (nsfwModeOf p.nsfw) r) = [] →
      unified_get_gifs records p pick =
        .httpError 404 (.withSuggestions
          ("no gifs found for character " ++ p.character.getD "")
          (suggest_character records (p.character.getD "") 5)) ∧
      (suggest_character records (p.character.getD "") 5).length ≤ 5) := by
  refine ⟨?_, ?_, ?_⟩
  · intro htag hanime hchar hmiss
    rw [unified_valid hv, listStage_none hl, qStage_none hq]
    unfold filterStage
    have hfs : ([p.tag, p.anime, p.character].filter truthy) = [p.tag] := by
      simp [List.filter_cons, htag, hanime, hchar]
    rw [hfs]
    rw [if_neg (by simp)]
    rw [if_pos htag]
    have hg : get_random_by_tag records (p.tag.getD "") (nsfwModeOf p.nsfw) pick =
        none := by
      unfold get_random_by_tag pickRandom
      rw [hmiss]
      rfl
    rw [hg]
    unfold randomMissHandler
    rw [if_neg (by simp [hanime]), if_neg (by simp [hchar])]
  · intro hanime htag hchar hmiss
    rw [unified_valid hv, listStage_none hl, qStage_none hq]
    unfold filterStage
    have hfs : ([p.tag, p.anime, p.character].filter truthy) = [p.anime] := by
      simp [List.filter_cons, htag, hanime, hchar]
    rw [hfs]
    rw [if_neg (by simp)]
    rw [if_neg (by simp [htag])]
    rw [if_pos hanime]
    have hg : get_random_by_anime records (p.anime.getD "") (nsfwModeOf p.nsfw) pick =
        none := by
      unfold get_random_by_anime pickRandom
      rw [hmiss]
      rfl
    rw [hg]
    refine ⟨?_, suggestLabels_length_le _ _ _⟩
    unfold randomMissHandler
    rw [if_pos hanime]
  · intro hchar htag hanime hmiss
    rw [unified_valid hv, listStage_none hl, qStage_none hq]
    unfold filterStage
    have hfs : ([p.tag, p.anime, p.character].filter truthy) = [p.character] := by
      simp [List.filter_cons, htag, hanime, hchar]
    rw [hfs]
    rw [if_neg (by simp)]
    rw [if_neg (by simp [htag])]
    rw [if_neg (by simp [hanime])]
    rw [if_pos hchar]
    have hg : get_random_by_character records (p.character.getD "")
        (nsfwModeOf p.nsfw) pick = none := by
      unfold get_random_by_character pickRandom
      rw [hmiss]
      rfl
    rw [hg]
    refine ⟨?_, suggestLabels_length_le _ _ _⟩
    unfold randomMissHandler
    rw [if_neg (by simp [hanime]), if_pos hchar]

/-- Witness for the amended C1: an anime miss over the empty store yields
404 with at most 5 suggestions. -/
theorem c1_random_miss_amended_witness :
    unified_get_gifs [] { defaultParams with anime := some "zzz" } 0 =
      .httpError 404 (.withSuggestions ("no gifs found for anime " ++ "zzz")
        (suggest_anime [] "zzz" 5)) ∧
    (suggest_anime [] "zzz" 5).length ≤ 5 :=
  (c1_random_miss_amended [] { defaultParams with anime := some "zzz" } 0
    rfl rfl rfl).2.1 rfl rfl rfl rfl

/-- C3: a guarded operation (POST /gifs, PATCH /gifs/id, DELETE /gifs/id,
GET /admin/gifs) with an absent X-Auth-Token, or a token rejected by
validate_token, answers 401 Unauthorized and leaves the store untouched. -/
theorem c3_auth_guard (d : DB) (tok : Option String) (p : GifIn) (gid : Nat)
    (payload : GifUpdate) (q : Option String) (nsfw : String)
    (limit offset : Nat)
    (h : tok = none ∨ ∃ t, tok = some t ∧ d.validate_token t = false) :
    guarded_create_or_update_gif d tok p = (d, unauthorized _) ∧
    guarded_update_gif d tok gid payload = (d, unauthorized _) ∧
    guarded_delete_gif d tok gid = (d, unauthorized _) ∧
    guarded_admin_list_gifs d tok q nsfw limit offset = (d, unauthorized _) := by
  have hra : require_auth d tok = false := by
    rcases h with h | ⟨t, ht, hv⟩
    · rw [h]; rfl
    · rw [ht]
      unfold require_auth
      simp [hv]
  simp [guarded_create_or_update_gif, guarded_update_gif, guarded_delete_gif,
    guarded_admin_list_gifs, hra]

/-- A concrete store with one record and one live token. -/
def dW : DB := ⟨[gW], 2, "t1", [("tok", 100)], 10, none⟩

/-- Witness for C3: the four guarded operations all reject an absent
token on a concrete store. -/
theorem c3_auth_guard_witness :
    guarded_create_or_update_gif dW none ⟨"B", "http://b", false, none, [], []⟩ =
      (dW, unauthorized _) ∧
    guarded_update_gif dW none 1 ⟨none, none, none, none, none, none⟩ =
      (dW, unauthorized _) ∧
    guarded_delete_gif dW none 1 = (dW, unauthorized _) ∧
    guarded_admin_list_gifs dW none none "true" 50 0 = (dW, unauthorized _) :=
  c3_auth_guard dW none ⟨"B", "http://b", false, none, [], []⟩ 1
    ⟨none, none, none, none, none, none⟩ none "true" 50 0 (Or.inl rfl)

/-- C8: PATCH /gifs/{id} under a healthy store: an absent id answers 404
with the store untouched; an existing id applies the partial update where
an omitted field keeps the stored value and an explicitly empty list
clears it. -/
theorem c8_patch_semantics (d : DB) (gid : Nat) (u : GifUpdate)
    (hf : d.fail = none) :
    (d.records.find? (fun r => r.id == gid) = none →
      update_gif d gid u = (d, .httpError 404 (.text "GIF not found"))) ∧
    (∀ r0, d.records.find? (fun r => r.id == gid) = some r0 →
      (update_gif d gid u).1.records =
        d.records.map (fun r => if r.id == gid then applyGifUpdate r u else r)) ∧
    (∀ r, u.tags = none → (applyGifUpdate r u).tags = r.tags) ∧
    (∀ r, u.characters = none → (applyGifUpdate r u).characters = r.characters) ∧
    (∀ r, u.title = none → (applyGifUpdate r u).title = r.title) ∧
    (∀ r, u.url = none → (applyGifUpdate r u).url = r.url) ∧
    (∀ r, u.nsfw = none → (applyGifUpdate r u).nsfw = r.nsfw) ∧
    (∀ r, u.anime = none → (applyGifUpdate r u).anime = r.anime) ∧
    (∀ r, u.tags = some [] → (applyGifUpdate r u).tags = []) ∧
    (∀ r, u.characters = some [] → (applyGifUpdate r u).characters = []) := by
  have hget : d.get_gif gid =
      (match d.records.find? (fun r => r.id == gid) with
        | some r => .ok r
        | none => .error .keyError) := by
    unfold DB.get_gif
    rw [hf]
  refine ⟨?_, ?_, ?_, ?_, ?_, ?_, ?_, ?_, ?_, ?_⟩
  · intro hfind
    unfold update_gif
    rw [hget, hfind]
  · intro r0 hfind
    obtain ⟨d2, hupd, hd2⟩ : ∃ d2, d.update_gif gid u = .ok d2 ∧
        d2.records =
          d.records.map (fun r => if r.id == gid then applyGifUpdate r u else r) := by
      unfold DB.update_gif
      rw [hf]
      exact ⟨_, rfl, rfl⟩
    unfold update_gif
    simp only [hget, hfind, hupd]
    rcases hg2 : d2.get_gif gid with e | r2 <;> simp only [hg2] <;> exact hd2
  · intro r h; simp [applyGifUpdate, h]
  · intro r h; simp [applyGifUpdate, h]
  · intro r h; simp [applyGifUpdate, h]
  · intro r h; simp [applyGifUpdate, h]
  · intro r h; simp [applyGifUpdate, h]
  · intro r h; simp [applyGifUpdate, h]
  · intro r h; simp [applyGifUpdate, h]
  · intro r h; simp [applyGifUpdate, h]

/-- The concrete PATCH payload used by the C8 witness: clear characters,
leave tags (and everything else) untouched. -/
def uW : GifUpdate := ⟨none, none, none, none, some [], none⟩

/-- Witness for C8: on a store holding gW (id 1), the PATCH applies
applyGifUpdate pointwise, an omitted tags field keeps gW.tags and the
explicit empty characters list clears them. -/
theorem c8_patch_semantics_witness :
    (update_gif dW 1 uW).1.records =
      dW.records.map (fun r => if r.id == 1 then applyGifUpdate r uW else r) ∧
    (applyGifUpdate gW uW).tags = gW.tags ∧
    (applyGifUpdate gW uW).characters = [] := by
  refine ⟨?_, ?_, ?_⟩
  · exact (c8_patch_semantics dW 1 uW rfl).2.1 gW rfl
  · exact (c8_patch_semantics dW 1 uW rfl).2.2.1 gW rfl
  · exact (c8_patch_semantics dW 1 uW rfl).2.2.2.2.2.2.2.2.2 gW rfl

/-- C9: POST /auth/login answers 500 (server configuration, distinct from
the 401 bad-credentials case) when no admin password is configured, 401 on
a wrong password, and on a match stores a token valid for 24 hours and
returns it together with its expiry. -/
theorem c9_login (ap : String) (d : DB) (fresh pw : String) :
    (ap = "" → login ap d fresh pw =
      (d, .httpError 500
        (.text "Server not configured: GIFAPI_ADMIN_PASSWORD missing"))) ∧
    (ap ≠ "" → pw ≠ ap →
      login ap d fresh pw = (d, .httpError 401 (.text "Invalid password"))) ∧
    (ap ≠ "" → pw = ap →
      login ap d fresh pw =
        ({ d with tokens := (fresh, d.now + 24 * 3600) :: d.tokens },
          .ok (fresh, some (d.now + 24 * 3600)))) := by
  refine ⟨?_, ?_, ?_⟩
  · intro h
    unfold login
    rw [if_pos (by rw [h]; rfl)]
  · intro h hpw
    unfold login
    rw [if_neg (by simpa using h)]
    rw [if_pos (by simp [hpw])]
  · intro h hpw
    unfold login
    rw [if_neg (by simpa using h)]
    rw [if_neg (by simp [hpw])]
    unfold DB.create_token DB.get_token_expiry
    simp

/-- Witness for C9: a successful login on a concrete store creates the
24-hour token and returns its expiry. -/
theorem c9_login_witness :
    login "pw" dW "tok2" "pw" =
      ({ dW with tokens := ("tok2", dW.now + 24 * 3600) :: dW.tokens },
        .ok ("tok2", some (dW.now + 24 * 3600))) :=
  (c9_login "pw" dW "tok2" "pw").2.2 (by decide) rfl

/-- C10: POST /gifs converts every exception raised inside the upsert into
a 400 client error: no outcome is an unhandled exception, every HTTP error
it produces carries status 400, and an injected backing-store failure
surfaces as a 400 whose detail is the exception's message. -/
theorem c10_post_catchall (d : DB) (p : GifIn) :
    (∀ st dt, (create_or_update_gif d p).2 = .httpError st dt → st = 400) ∧
    (∀ m, (create_or_update_gif d p).2 ≠ .uncaught m) ∧
    (∀ m, d.fail = some m →
      create_or_update_gif d p = (d, .httpError 400 (.text m))) := by
  have hcases : (∃ d2 r, create_or_update_gif d p = (d2, .ok (201, r))) ∨
      (∃ d2 m, create_or_update_gif d p = (d2, .httpError 400 (.text m))) := by
    rcases hb : d.get_gif_by_url p.url with e | existing
    · cases e with
      | keyError =>
        rcases hi : d.insert_gif p with e2 | di
        · right
          exact ⟨d, e2.msg, by simp only [create_or_update_gif, hb, hi]⟩
        · obtain ⟨d2, gid⟩ := di
          rcases hg : d2.get_gif gid with e3 | r
          · right
            exact ⟨d2, e3.msg, by simp only [create_or_update_gif, hb, hi, hg]⟩
          · left
            exact ⟨d2, r, by simp only [create_or_update_gif, hb, hi, hg]⟩
      | failure m =>
        right
        exact ⟨d, m, by simp only [create_or_update_gif, hb]⟩
    · rcases hu : d.update_gif existing.id
          ⟨some p.title, none, some p.nsfw, p.anime, some p.characters,
            some p.tags⟩ with e2 | d2
      · right
        exact ⟨d, e2.msg, by simp only [create_or_update_gif, hb, hu]⟩
      · rcases hg : d2.get_gif existing.id with e3 | r
        · right
          exact ⟨d2, e3.msg, by simp only [create_or_update_gif, hb, hu, hg]⟩
        · left
          exact ⟨d2, r, by simp only [create_or_update_gif, hb, hu, hg]⟩
  refine ⟨?_, ?_, ?_⟩
  · intro st dt hh
    rcases hcases with ⟨d2, r, he⟩ | ⟨d2, m, he⟩ <;> rw [he] at hh <;> simp at hh
    exact hh.1.symm
  · intro m hh
    rcases hcases with ⟨d2, r, he⟩ | ⟨d2, m2, he⟩ <;> rw [he] at hh <;> simp at hh
  · intro m hfail
    have hb : d.get_gif_by_url p.url = .error (.failure m) := by
      unfold DB.get_gif_by_url
      rw [hfail]
    unfold create_or_update_gif
    rw [hb]

/-- A concrete store whose backing store raises on every statement. -/
def dFail : DB := ⟨[gW], 2, "t1", [], 0, some "db down"⟩

/-- Witness for C10: on the failing store, POST /gifs answers 400 carrying
the exception message and leaves the store unchanged. -/
theorem c10_post_catchall_witness :
    create_or_update_gif dFail ⟨"B", "http://b", false, none, [], []⟩ =
      (dFail, .httpError 400 (.text "db down")) :=
  (c10_post_catchall dFail ⟨"B", "http://b", false, none, [], []⟩).2.2 "db down" rfl

/-- The record already stored under the upserted url. -/
def gC2 : GifRecord := ⟨1, "Old", "http://a/1.gif", false, none, "t0", [], ["old"]⟩

/-- A concrete store holding gC2. -/
def dC2 : DB := ⟨[gC2], 2, "t1", [], 0, none⟩

/-- A POST /gifs payload whose url equals the stored record's url. -/
def pC2 : GifIn := ⟨"New", "http://a/1.gif", true, some "X", ["c"], ["new"]⟩

/-- A POST /gifs payload with a fresh url. -/
def pC2b : GifIn := ⟨"B", "http://a/2.gif", false, none, [], []⟩

/-- C2 (code behaviour at the failing input): posting an already-stored
url updates the record in place and leaves the record count unchanged, but
the response status is the decorator's 201 — the handler never switches to
200 on the update path; posting a fresh url inserts and answers 201. -/
theorem c2_upsert_status :
    create_or_update_gif dC2 pC2 =
      ({ dC2 with records :=
          [⟨1, "New", "http://a/1.gif", true, some "X", "t0", ["c"], ["new"]⟩] },
        .ok (201, ⟨1, "New", "http://a/1.gif", true, some "X", "t0", ["c"], ["new"]⟩)) ∧
    (create_or_update_gif dC2 pC2).1.records.length = dC2.records.length ∧
    create_or_update_gif dC2 pC2b =
      ({ dC2 with
          records := [gC2, ⟨2, "B", "http://a/2.gif", false, none, "t1", [], []⟩],
          nextId := 3 },
        .ok (201, ⟨2, "B", "http://a/2.gif", false, none, "t1", [], []⟩)) ∧
    (create_or_update_gif dC2 pC2b).1.records.length = dC2.records.length + 1 :=
  ⟨rfl, rfl, rfl, rfl⟩
